import Mathlib

set_option maxRecDepth 40000

/-!
Shallow embedding of the CacheF3r cache-poisoning scanner (src/cachef3r.py)
and verification of the spec claims C1-C10.

Conventions:
* Python strings are Lean `String`s; character-level work happens on `.data`.
* Python dicts used as records become structures; `requests` responses become
  `HttpResponse`; network I/O is resolved through explicit oracle values.
* Python truthiness of a string is emptiness testing; `str.lower` is modelled
  by `pyLower` (the scanner only feeds ASCII header values and URLs).
* Fallible Python code (exceptions escaping a function) is modelled with
  `Except String`.
-/

/-- One character of the whitespace set stripped by Python str.strip
(ASCII part; the scanner only handles ASCII target strings). -/
def isPySpace (c : Char) : Bool :=
  c == ' ' || c == '\t' || c == '\n' || c == '\r' || c == '\x0b' || c == '\x0c'

/-- startsList p l is true when the list p is an initial run of l.
Models Python str.startswith at character level. -/
def startsList : List Char → List Char → Bool
  | [], _ => true
  | _ :: _, [] => false
  | a :: as, b :: bs => a == b && startsList as bs

/-- containsList needle hay models the Python substring test needle in hay. -/
def containsList : List Char → List Char → Bool
  | needle, [] => needle.isEmpty
  | needle, c :: rest => startsList needle (c :: rest) || containsList needle rest

/-- Python substring membership on strings: needle in hay. -/
def pyIn (needle hay : String) : Bool :=
  containsList needle.data hay.data

/-- Python str.lower, modelled character-wise (faithful on the ASCII data the
scanner manipulates). -/
def pyLower (s : String) : String :=
  ⟨s.data.map Char.toLower⟩

/-- Python str.strip() on the character list: drop whitespace from both ends. -/
def stripList (l : List Char) : List Char :=
  ((l.dropWhile isPySpace).reverse.dropWhile isPySpace).reverse

/-- The regex substitution re.sub applied in normalize_url: the anchored
pattern matches one leading occurrence of http:// or https:// and deletes it. -/
def schemeDropList (l : List Char) : List Char :=
  if startsList "https://".data l then l.drop 8
  else if startsList "http://".data l then l.drop 7
  else l

/-- Source normalize_url (src/cachef3r.py lines 79-85): strip the input,
delete a leading http:// or https://, and prepend https://. -/
def normalize_url (url : String) : String :=
  ⟨"https://".data ++ schemeDropList (stripList url.data)⟩

/-! ### Model of urllib.parse on the URL shapes the scanner produces.

The scanner feeds urlparse/urljoin absolute http(s) URLs, absolute paths and
plain relative references; dot-segment normalization is never exercised and is
not modelled. -/

/-- Split scheme://rest at the first occurrence of ://, if any. -/
def splitScheme : List Char → Option (List Char × List Char)
  | [] => none
  | c :: rest =>
    if startsList (':' :: '/' :: '/' :: []) (c :: rest) then some ([], rest.drop 2)
    else (splitScheme rest).map (fun ab => (c :: ab.1, ab.2))

/-- A character ending the netloc component of a URL. -/
def isNetEnd (c : Char) : Bool :=
  c == '/' || c == '?' || c == '#'

/-- A character ending the path component of a URL. -/
def isPathEnd (c : Char) : Bool :=
  c == '?' || c == '#'

/-- The (scheme, netloc, path) triple of urllib.parse.urlparse. -/
structure ParsedUrl where
  scheme : String
  netloc : String
  path : String
deriving DecidableEq

/-- Model of urllib.parse.urlparse restricted to the scheme, netloc and path
components the scanner reads. Strings without :// parse with an empty netloc
and the pre-query remainder as path, matching urlparse on the relative and
absolute-path references the crawler extracts. -/
def pyUrlparse (url : String) : ParsedUrl :=
  match splitScheme url.data with
  | some (sch, rest) =>
    let netloc := rest.takeWhile (fun c => !isNetEnd c)
    let tail1 := rest.dropWhile (fun c => !isNetEnd c)
    ⟨⟨sch⟩, ⟨netloc⟩, ⟨tail1.takeWhile (fun c => !isPathEnd c)⟩⟩
  | none => ⟨"", "", ⟨url.data.takeWhile (fun c => !isPathEnd c)⟩⟩

/-- True when a reference carries its own scheme (a : before any /),
so that urljoin returns it unchanged. -/
def hasOwnScheme (l : List Char) : Bool :=
  (l.takeWhile (fun c => !isNetEnd c)).contains ':'

/-- The directory part of a base path (everything up to and including the last
slash), used by urljoin for plain relative references. -/
def dirPart (p : List Char) : List Char :=
  (p.reverse.dropWhile (fun c => c != '/')).reverse

/-- Model of urllib.parse.urljoin for the reference shapes the scanner
produces: network-path references (//host/...), absolute paths (/...),
references with their own scheme, and plain relative references (resolved
against the directory of the base path; dot segments are not exercised). -/
def pyUrljoin (base rel : String) : String :=
  if rel = "" then base
  else if startsList ('/' :: '/' :: []) rel.data then
    (pyUrlparse base).scheme ++ ":" ++ rel
  else if startsList ('/' :: []) rel.data then
    (pyUrlparse base).scheme ++ "://" ++ (pyUrlparse base).netloc ++ rel
  else if hasOwnScheme rel.data then rel
  else
    let p := pyUrlparse base
    let d := dirPart p.path.data
    p.scheme ++ "://" ++ p.netloc ++ (if d = [] then "/" else ⟨d⟩) ++ rel

/-- Python str.rstrip applied with the single character slash. -/
def rstripSlash (l : List Char) : List Char :=
  (l.reverse.dropWhile (fun c => c == '/')).reverse

/-- os.path.splitext on a URL path, returning only the extension component
(empty when the basename has no dot outside its leading-dot run). -/
def splitextExt (p : String) : String :=
  let b := (p.data.reverse.takeWhile (fun c => c != '/')).reverse
  let lead := (b.takeWhile (fun c => c == '.')).length
  let core := b.drop lead
  let t1 := core.reverse.takeWhile (fun c => c != '.')
  if t1.length < core.length then ⟨'.' :: t1.reverse⟩ else ""

/-! ### URL discovery (src/cachef3r.py discover_urls, lines 334-523). -/

/-- Source is_same_domain (lines 344-350): a URL passes when its parsed netloc
equals the target domain or its parsed path starts with a slash. The target
argument stands for the captured target whose netloc is target_domain. -/
def is_same_domain (target url : String) : Bool :=
  (pyUrlparse url).netloc == (pyUrlparse target).netloc ||
    startsList ('/' :: []) (pyUrlparse url).path.data

/-- Source normalize_path (lines 352-359): take the parsed path, strip
trailing slashes (falling back to /), and rejoin against the target. -/
def normalize_path (target url : String) : String :=
  let stripped := rstripSlash (pyUrlparse url).path.data
  let path : String := if stripped = [] then "/" else ⟨stripped⟩
  pyUrljoin target path

/-- The common_endpoints seed list of discover_urls (lines 362-406),
in source order, duplicates included. -/
def common_endpoints : List String :=
  ["", "api", "v1", "v2", "admin", "portal", "graphql", "wp-json",
   ".well-known", "actuator", "metrics", "health", "status", "api-docs",
   "swagger", "openapi", "docs", "help", "debug", "internal", "private",
   "public", "auth", "login", "user", "admin", "dashboard", "console",
   "management", "monitor", "static", "assets", "images", "css", "js",
   "lib", "vendor", "includes", "upload", "uploads", "files", "temp",
   "cache"]

/-- Python set.add on the insertion-ordered list model of a set. -/
def setAdd (l : List String) (x : String) : List String :=
  if l.contains x then l else l ++ [x]

/-- Transport oracle for the crawler: fetch url is some refs when the GET
returns status 200 with a body from which the three regex scans of crawl_url
extract the reference list refs; none models a transport error or a non-200
status (both leave the state unchanged apart from progress display). -/
structure Oracle where
  fetch : String → Option (List String)

/-- Crawl state: the discovered-URL set (insertion-ordered, Python set),
the log of URLs fetched by crawl_url invocations, and the discovered-set size
recorded at each recursive-expansion decision. -/
structure CrawlSt where
  disc : List String
  fetchLog : List String
  recLog : List Nat
deriving DecidableEq

/-- Resolution of one extracted reference (crawl_url lines 447-453):
absolute paths join against the target, absolute http(s) URLs stand,
anything else joins against the fetched page URL. -/
def resolveRef (target pageUrl ref : String) : String :=
  if startsList ('/' :: []) ref.data then pyUrljoin target ref
  else if startsList "http://".data ref.data || startsList "https://".data ref.data then ref
  else pyUrljoin pageUrl ref

/-- The keep test of crawl_url line 455: same-domain check on the resolved
URL plus absence from the discovered set. -/
def keepTest (target : String) (st : CrawlSt) (full : String) : Bool :=
  is_same_domain target full && !(st.disc.contains full)

/-- One reference processed at crawl depth 1: the add of line 456 happens, but
the recursion guard depth < max_depth - 1 is false, so no further crawl. -/
def crawlLeafStep (target pageUrl : String) (st : CrawlSt) (ref : String) : CrawlSt :=
  let full := resolveRef target pageUrl ref
  if keepTest target st full then
    { st with disc := setAdd st.disc (normalize_path target full) }
  else st

/-- crawl_url invoked at depth 1 (the only recursive call depth, since
max_depth = 2): fetch the page and process its references without recursing. -/
def crawlLeaf (O : Oracle) (target url : String) (st : CrawlSt) : CrawlSt :=
  let st1 := { st with fetchLog := st.fetchLog ++ [url] }
  match O.fetch url with
  | none => st1
  | some refs => refs.foldl (crawlLeafStep target url) st1

/-- The reference loop of crawl_url at depth 0: each kept reference is added,
and while the discovered set is below MAX_URLS (and depth 0 < max_depth - 1)
the resolved URL is recursively crawled at depth 1. The recLog entry records
the set size at each recursion decision. -/
def crawlRootRefs (O : Oracle) (target : String) : List String → CrawlSt → CrawlSt
  | [], st => st
  | ref :: rest, st =>
    let full := resolveRef target target ref
    if keepTest target st full then
      let st2 := { st with disc := setAdd st.disc (normalize_path target full) }
      if st2.disc.length < 1000 then
        let st3 := { st2 with recLog := st2.recLog ++ [st2.disc.length] }
        crawlRootRefs O target rest (crawlLeaf O target full st3)
      else crawlRootRefs O target rest st2
    else crawlRootRefs O target rest st

/-- Source crawl_url (lines 415-470) started at the target with depth 0,
max_depth = 2; the two depth levels are unrolled. -/
def crawl_url (O : Oracle) (target : String) (st : CrawlSt) : CrawlSt :=
  let st1 := { st with fetchLog := st.fetchLog ++ [target] }
  match O.fetch target with
  | none => st1
  | some refs => crawlRootRefs O target refs st1

/-- The excluded static-asset extensions of discover_urls line 492. -/
def excluded_extensions : List String :=
  [".jpg", ".jpeg", ".png", ".gif", ".css", ".js", ".svg", ".ico",
   ".woff", ".ttf", ".eot"]

/-- One step of the post-crawl filter loop (lines 501-515): keep a URL when
its path extension is not excluded, it passes is_same_domain, and fewer than
MAX_URLS URLs have been kept. -/
def filterStep (target : String) (acc : List String) (url : String) : List String :=
  let ext := pyLower (splitextExt (pyUrlparse url).path)
  if !(excluded_extensions.contains ext) && is_same_domain target url &&
      acc.length < 1000 then
    setAdd acc url
  else acc

/-- The seeded initial crawl state of discover_urls (lines 408-410): every
common endpoint is normalized against the target and added. -/
def seedState (target : String) : CrawlSt :=
  ⟨common_endpoints.foldl
      (fun s e => setAdd s (normalize_path target (target ++ "/" ++ e ++ "/"))) [],
   [], []⟩

/-- Source discover_urls (lines 334-523): seed the discovered set, crawl from
the target, then filter; the returned value is the filtered URL list. -/
def discover_urls (O : Oracle) (target : String) : List String :=
  ((crawl_url O target (seedState target)).disc).foldl (filterStep target) []

/-! ### Reflection detection (validate_response_reflection, lines 113-130). -/

/-- The reflection_details dict built by validate_response_reflection.
is_reflected is initialized False and never updated by the source. -/
structure ReflectionDetails where
  is_reflected : Bool
  location_reflection : Bool
  context : Option String
deriving DecidableEq

/-- The two value shapes validate_response_reflection can return: the early
return False, None (a 2-tuple) on a falsy payload, or the 3-key
reflection_details dict. -/
inductive ReflectOut where
  | pair (is_reflected : Bool) (context : Option String)
  | details (d : ReflectionDetails)
deriving DecidableEq

/-- Source validate_response_reflection (lines 113-130). The location_header
argument carries Python truthiness: none and some "" are both falsy. -/
def validate_response_reflection (response_text payload_value : String)
    (location_header : Option String) : ReflectOut :=
  if payload_value = "" then .pair false none
  else
    match location_header with
    | none => .details ⟨false, false, none⟩
    | some loc =>
      if loc = "" then .details ⟨false, false, none⟩
      else if pyIn (pyLower payload_value) (pyLower loc) then
        .details ⟨false, true, some ("Location: " ++ loc)⟩
      else .details ⟨false, false, none⟩

/-- Whether a validate_response_reflection result reports a Location
reflection (the location_reflection entry; the early tuple reports none). -/
def reportsLocationReflection : ReflectOut → Bool
  | .pair _ _ => false
  | .details d => d.location_reflection

/-! ### Response comparison (compare_responses, lines 132-197). -/

/-- The response dicts consumed by compare_responses: status, length, a plain
header dict, and the captured content. -/
structure RespDict where
  status : Int
  length : Int
  headers : List (String × String)
  content : String
deriving DecidableEq

/-- Plain Python dict get on an association list (first binding wins). -/
def dictGet (hs : List (String × String)) (k : String) : Option String :=
  (hs.find? (fun kv => kv.1 == k)).map (fun kv => kv.2)

/-- The differences dict of compare_responses with its literal initial
values; similarity_score is rational-valued (difflib ratios are exact
rationals 2 M / T). -/
structure DiffDetails where
  status_changed : Bool
  length_changed : Bool
  content_changed : Bool
  headers_changed : Bool
  reflection_found : Bool
  similarity_score : ℚ
deriving DecidableEq

/-- The important header set of compare_responses line 156. -/
def important_headers : List String :=
  ["server", "x-powered-by", "x-cache", "cache-control", "location"]

/-- Source compare_responses (lines 132-197). The difflib.SequenceMatcher
ratio on the first 1000 characters is passed in as the function ratio
(difflib is external library code). The tuple unpacking of line 173 applied
to the 3-key dict returned on a non-empty payload raises ValueError, modelled
by the error result. -/
def compare_responses (ratio : String → String → ℚ)
    (baseline test_response : RespDict) (payload_value : String)
    (threshold : ℚ) : Except String (Bool × DiffDetails) :=
  let status_changed := decide (100 ≤ (baseline.status - test_response.status).natAbs)
  let length_changed :=
    if 0 < baseline.length then
      decide ((15 : ℚ) / 100 <
        ((test_response.length - baseline.length).natAbs : ℚ) / (baseline.length : ℚ))
    else false
  let header_changes :=
    important_headers.filter
      (fun h => dictGet baseline.headers h != dictGet test_response.headers h)
  match validate_response_reflection test_response.content payload_value
      (some baseline.content) with
  | .details _ => .error "ValueError: too many values to unpack (expected 2)"
  | .pair is_reflected _ =>
    let similarity_score : ℚ :=
      if baseline.content ≠ "" ∧ test_response.content ≠ "" then
        ratio ⟨baseline.content.data.take 1000⟩ ⟨test_response.content.data.take 1000⟩
      else 1
    let differences : DiffDetails :=
      ⟨status_changed, length_changed, false, !header_changes.isEmpty,
       is_reflected, similarity_score⟩
    let is_different :=
      status_changed || length_changed ||
        (is_reflected && decide (similarity_score < threshold)) ||
        (decide (2 ≤ header_changes.length) && decide (similarity_score < threshold))
    .ok (is_different, differences)

/-! ### 302-poisoning verification (verify_302_poisoning, lines 546-620). -/

/-- A captured HTTP response: status code, raw headers, body text. -/
structure HttpResponse where
  status : Int
  headers : List (String × String)
  body : String
deriving DecidableEq

/-- requests case-insensitive header lookup (CaseInsensitiveDict.get). -/
def headerGetCI (hs : List (String × String)) (name : String) : Option String :=
  (hs.find? (fun kv => pyLower kv.1 == pyLower name)).map (fun kv => kv.2)

deriving instance DecidableEq for Except

/-- The transport environment of one verification attempt: the three minted
cache busters and the responses the network yields for the baseline request
and the two probe requests. The baseline is Except (an error carries the
RequestException text); probe failures carry no message (they are skipped). -/
structure VerifyEnv where
  url : String
  cb0 : String
  cb1 : String
  cb2 : String
  baseline : Except String HttpResponse
  probe1 : Option HttpResponse
  probe2 : Option HttpResponse
deriving DecidableEq

/-- One recorded probe success (the dict appended to results, lines 597-603). -/
structure ProbeRecord where
  url : String
  status_code : Int
  location : String
  reflection : ReflectionDetails
  headers : List (String × String)
deriving DecidableEq

/-- The observable outcome of verify_302_poisoning: the returned pair (or the
text of an exception escaping the function), the number of probe requests
issued, and the number of one-second inter-probe sleeps executed. -/
structure VerifyResult where
  outcome : Except String (Option ProbeRecord × Option String)
  probesIssued : Nat
  sleeps : Nat
deriving DecidableEq

/-- One iteration of the probe loop (lines 573-608) on the accumulated
(results, sleeps): a transport failure is skipped; a 302 whose Location
reflects the payload is recorded; the sleep runs whenever a response arrived.
An empty payload makes validate_response_reflection return its tuple shape,
and the location_reflection subscript then raises TypeError. -/
def probeStep (header_value test_url : String) (resp? : Option HttpResponse)
    (acc : List ProbeRecord × Nat) : Except String (List ProbeRecord × Nat) :=
  match resp? with
  | none => .ok acc
  | some resp =>
    if resp.status = 302 then
      let location := (headerGetCI resp.headers "Location").getD ""
      match validate_response_reflection resp.body header_value (some location) with
      | .pair _ _ => .error "TypeError: tuple indices must be integers"
      | .details refl =>
        let results :=
          if refl.location_reflection then
            acc.1 ++ [⟨test_url, resp.status, location, refl, resp.headers⟩]
          else acc.1
        .ok (results, acc.2 + 1)
    else .ok (acc.1, acc.2 + 1)

/-- Source verify_302_poisoning (lines 546-620): baseline fetch (transport
error returns the error-reason pair), early rejection when the baseline is
already a 302 containing the payload, the two probe iterations, and the
final consistency decision on the recorded results. -/
def verify_302_poisoning (env : VerifyEnv) (header_name header_value : String) :
    VerifyResult :=
  match env.baseline with
  | .error e =>
    ⟨.ok (none, some ("Error during verification: " ++ e)), 0, 0⟩
  | .ok b =>
    let baseline_location := (headerGetCI b.headers "Location").getD ""
    if b.status = 302 && pyIn (pyLower header_value) (pyLower baseline_location) then
      ⟨.ok (none, some "Baseline already contains payload in redirect"), 0, 0⟩
    else
      match probeStep header_value (env.url ++ "?" ++ env.cb1) env.probe1 ([], 0) with
      | .error e => ⟨.error e, 1, 0⟩
      | .ok acc1 =>
        match probeStep header_value (env.url ++ "?" ++ env.cb2) env.probe2 acc1 with
        | .error e => ⟨.error e, 2, acc1.2⟩
        | .ok acc2 =>
          if 2 ≤ acc2.1.length ∧ (acc2.1.map (fun r => r.location)).dedup.length = 1 then
            ⟨.ok (acc2.1.head?, none), 2, acc2.2⟩
          else
            ⟨.ok (none, some "Inconsistent or insufficient 302 responses"), 2, acc2.2⟩

/-- The record a single probe slot contributes, described as in spec section
4.4 step 4: a response that is a 302 whose non-empty Location contains the
payload case-insensitively yields one recorded success, anything else none. -/
def probeRecOf (header_value test_url : String) (resp? : Option HttpResponse) :
    List ProbeRecord :=
  match resp? with
  | none => []
  | some resp =>
    if resp.status = 302 then
      let location := (headerGetCI resp.headers "Location").getD ""
      if location ≠ "" ∧ pyIn (pyLower header_value) (pyLower location) = true then
        [⟨test_url, resp.status, location,
          ⟨false, true, some ("Location: " ++ location)⟩, resp.headers⟩]
      else []
    else []

/-- The number of inter-probe sleeps one probe slot contributes (one whenever
a response arrived). -/
def probeSleepOf (resp? : Option HttpResponse) : Nat :=
  match resp? with
  | none => 0
  | some _ => 1

/-- The probe successes the protocol records over the two cache-busted
probes, in probe order. Used to state the decision-rule claims against
verify_302_poisoning. -/
def recordedProbes (env : VerifyEnv) (header_value : String) : List ProbeRecord :=
  probeRecOf header_value (env.url ++ "?" ++ env.cb1) env.probe1 ++
    probeRecOf header_value (env.url ++ "?" ++ env.cb2) env.probe2

/-! ### Per-URL testing loop (test_cache_poisoning, lines 622-684). -/

/-- The scan mode flag: accepted by the command line and passed through to
test_cache_poisoning. -/
inductive ScanMode where
  | standard
  | aggressive
  | stealth
deriving DecidableEq

/-- The record appended to the finding log for one verified result
(vulnerability_data, lines 661-674). -/
structure VulnRecord where
  url : String
  header : String
  status_code : Int
  location : String
  reflection_details : ReflectionDetails
  verification_status : String
  verification_type : String
deriving DecidableEq

/-- The per-pair log entry of the testing loop: which header and value were
tried and the full observable verification result. -/
structure PairLog where
  header_name : String
  header_value : String
  result : VerifyResult
deriving DecidableEq

/-- The header-value testing loop of test_cache_poisoning: pairs are tried in
catalog order, each verified outcome with a finding appends a VulnRecord, and
an exception escaping verify_302_poisoning is caught by the enclosing broad
except, aborting the remaining pairs (the Bool records that abort). -/
def runPairs (url : String) (transport : String → String → VerifyEnv) :
    List (String × String) → List PairLog × List VulnRecord →
    List PairLog × List VulnRecord × Bool
  | [], (logs, recs) => (logs, recs, false)
  | (hn, hv) :: rest, (logs, recs) =>
    let vr := verify_302_poisoning (transport hn hv) hn hv
    match vr.outcome with
    | .error _ => (logs ++ [⟨hn, hv, vr⟩], recs, true)
    | .ok (some f, _) =>
      runPairs url transport rest
        (logs ++ [⟨hn, hv, vr⟩],
         recs ++ [⟨url, hn ++ ": " ++ hv, f.status_code, f.location, f.reflection,
                   "verified", "302_redirect"⟩])
    | .ok (none, _) => runPairs url transport rest (logs ++ [⟨hn, hv, vr⟩], recs)

/-- Source test_cache_poisoning (lines 622-684) with the network resolved by
a transport oracle mapping each header name and value to its verification
environment. The mode argument is carried exactly as in the source signature. -/
def test_cache_poisoning (url : String) (payloads : List (String × List String))
    (transport : String → String → VerifyEnv) (mode : ScanMode) :
    List PairLog × List VulnRecord × Bool :=
  runPairs url transport
    (payloads.flatMap (fun hvs => hvs.2.map (fun v => (hvs.1, v)))) ([], [])

/-! ### Concrete scenario data used by the claim theorems and witnesses. -/

/-- A sample probe-result dict (status 200, body hello) for exercising
compare_responses. -/
def exResp : RespDict := ⟨200, 5, [("server", "nginx")], "hello"⟩

/-- The target of the discovery scenarios. -/
def exTarget : String := "https://e.co"

/-- Crawl scenario: the target page carries one absolute out-of-domain
reference; every other fetch fails. -/
def exOracleEvil : Oracle :=
  ⟨fun u => if u = exTarget then some ["https://evil.com/x"] else none⟩

/-- Crawl scenario: the target page carries one same-domain reference whose
path component begins with a double slash; every other fetch fails. -/
def exOracleSlash : Oracle :=
  ⟨fun u => if u = exTarget then some ["https://e.co//evil.com/x"] else none⟩

/-- A same-domain absolute-path link: a slash followed by n copies of z. -/
def zLink (n : Nat) : String := ⟨'/' :: List.replicate n 'z'⟩

/-- The resolution of zLink n against the example target. -/
def zFull (n : Nat) : String := ⟨"https://e.co".data ++ '/' :: List.replicate n 'z'⟩

/-- k distinct same-domain links zLink j, zLink (j+1), ... -/
def zLinks : Nat → Nat → List String
  | _, 0 => []
  | j, k + 1 => zLink j :: zLinks (j + 1) k

/-- Crawl scenario: the target page carries 960 distinct same-domain links;
every other fetch fails. -/
def exOracleMany : Oracle :=
  ⟨fun u => if u = exTarget then some (zLinks 50 960) else none⟩

/-- Crawl scenario: the target page carries a single same-domain link. -/
def exOracleOne : Oracle :=
  ⟨fun u => if u = exTarget then some ["/a"] else none⟩

/-- Verification scenario: 200 baseline, both probes 302 with the identical
reflected Location (the spec section 8 success scenario). -/
def exEnvGood : VerifyEnv :=
  ⟨"https://e.co/p", "v0", "v1", "v2",
   .ok ⟨200, [], "home"⟩,
   some ⟨302, [("Location", "https://evil.com/dashboard")], ""⟩,
   some ⟨302, [("Location", "https://evil.com/dashboard")], ""⟩⟩

/-- The probe record the good scenario records for each probe slot. -/
def exRecordGood (cb : String) : ProbeRecord :=
  ⟨"https://e.co/p?" ++ cb, 302, "https://evil.com/dashboard",
   ⟨false, true, some "Location: https://evil.com/dashboard"⟩,
   [("Location", "https://evil.com/dashboard")]⟩

/-! ## Helper lemmas -/

theorem startsList_append (p l : List Char) : startsList p (p ++ l) = true := by
  induction p with
  | nil => rfl
  | cons a as ih => simp [startsList, ih]

theorem dropWhile_idem {α : Type} (p : α → Bool) (l : List α) :
    (l.dropWhile p).dropWhile p = l.dropWhile p := by
  induction l with
  | nil => rfl
  | cons a l ih =>
    by_cases h : p a = true
    · simp [List.dropWhile_cons, h, ih]
    · simp [List.dropWhile_cons, h]

theorem dropWhile_length_le {α : Type} (p : α → Bool) (l : List α) :
    (l.dropWhile p).length ≤ l.length := by
  induction l with
  | nil => simp
  | cons a as ih =>
    by_cases h : p a = true
    · simp only [List.dropWhile_cons, h, if_true]
      exact Nat.le_succ_of_le ih
    · simp [List.dropWhile_cons, h]

theorem noSpace_append_left (p : Char → Bool) (x y : List Char)
    (h : (x ++ y).dropWhile p = x ++ y) : x.dropWhile p = x := by
  cases x with
  | nil => rfl
  | cons a as =>
    by_cases ha : p a = true
    · exfalso
      have h1 : ((a :: as) ++ y).dropWhile p = (as ++ y).dropWhile p := by
        simp [List.dropWhile_cons, ha]
      have h2 := dropWhile_length_le p (as ++ y)
      rw [h1] at h
      have h3 := congrArg List.length h
      simp only [List.length_append, List.length_cons] at h3 h2
      omega
    · simp [List.dropWhile_cons, ha]

theorem strip_noTrail (l : List Char) :
    ((stripList l).reverse).dropWhile isPySpace = (stripList l).reverse := by
  unfold stripList
  rw [List.reverse_reverse]
  exact dropWhile_idem _ _

theorem schemeDrop_noTrail (l : List Char)
    (h : l.reverse.dropWhile isPySpace = l.reverse) :
    (schemeDropList l).reverse.dropWhile isPySpace = (schemeDropList l).reverse := by
  have key : ∀ n : Nat, (l.drop n).reverse.dropWhile isPySpace = (l.drop n).reverse := by
    intro n
    have hsplit : l.reverse = (l.drop n).reverse ++ (l.take n).reverse := by
      rw [← List.reverse_append, List.take_append_drop]
    rw [hsplit] at h
    exact noSpace_append_left _ _ _ h
  unfold schemeDropList
  split
  · exact key 8
  · split
    · exact key 7
    · exact h

theorem stripList_https (s : List Char)
    (hs : s.reverse.dropWhile isPySpace = s.reverse) :
    stripList ("https://".data ++ s) = "https://".data ++ s := by
  have hd : "https://".data = ['h', 't', 't', 'p', 's', ':', '/', '/'] := rfl
  unfold stripList
  rw [hd]
  have h1 : (['h', 't', 't', 'p', 's', ':', '/', '/'] ++ s).dropWhile isPySpace
      = ['h', 't', 't', 'p', 's', ':', '/', '/'] ++ s := by
    rw [List.cons_append, List.dropWhile_cons_of_neg (by decide)]
  rw [h1, List.reverse_append]
  cases hrev : s.reverse with
  | nil =>
    have hsnil : s = [] := by
      have := congrArg List.reverse hrev
      simpa using this
    subst hsnil
    decide
  | cons c cs =>
    have hc : isPySpace c = false := by
      rw [hrev] at hs
      by_cases hcc : isPySpace c = true
      · exfalso
        have h2 : (c :: cs).dropWhile isPySpace = cs.dropWhile isPySpace := by
          simp [List.dropWhile_cons, hcc]
        rw [h2] at hs
        have h4 := congrArg List.length hs
        have h3 := dropWhile_length_le isPySpace cs
        simp only [List.length_cons] at h4
        omega
      · simpa using hcc
    rw [List.cons_append, List.dropWhile_cons_of_neg (by simp [hc])]
    rw [← List.cons_append, ← hrev, ← List.reverse_append, List.reverse_reverse]

theorem schemeDropList_https (s : List Char) :
    schemeDropList ("https://".data ++ s) = s := by
  unfold schemeDropList
  rw [if_pos (startsList_append _ s)]
  have h8 : ("https://".data).length = 8 := rfl
  rw [← h8, List.drop_left]

/-- C8. For every target URL, normalize_url is idempotent
(normalize_url (normalize_url T) = normalize_url T), and its result always
carries the https scheme. -/
theorem normalize_url_idempotent_https (u : String) :
    normalize_url (normalize_url u) = normalize_url u ∧
      startsList "https://".data (normalize_url u).data = true := by
  constructor
  · show normalize_url ⟨"https://".data ++ schemeDropList (stripList u.data)⟩
      = ⟨"https://".data ++ schemeDropList (stripList u.data)⟩
    have hTrail := schemeDrop_noTrail (stripList u.data) (strip_noTrail u.data)
    unfold normalize_url
    have hdata : (⟨"https://".data ++ schemeDropList (stripList u.data)⟩ : String).data
        = "https://".data ++ schemeDropList (stripList u.data) := rfl
    rw [hdata, stripList_https _ hTrail, schemeDropList_https]
  · exact startsList_append _ _

theorem pyIn_empty_hay (s : String) (h : s ≠ "") : pyIn s "" = false := by
  have hd : s.data ≠ [] := by
    intro hnil
    apply h
    cases s
    simp at hnil
    simp [hnil]
  unfold pyIn containsList
  cases hm : s.data with
  | nil => exact absurd hm hd
  | cons a as => simp [List.isEmpty]

theorem pyLower_ne_empty (s : String) (h : s ≠ "") : pyLower s ≠ "" := by
  intro hc
  apply h
  have h1 : (pyLower s).data = s.data.map Char.toLower := rfl
  rw [hc] at h1
  have h2 : s.data.map Char.toLower = [] := h1.symm
  have h3 : s.data = [] := by simpa using h2
  cases s
  simp at h3
  simp [h3]

/-- C1. The claim asserts compare_responses r r payloadValue returns
is_different false with similarity_score 1.0 for every payload, but for any
non-empty payload the function raises ValueError: validate_response_reflection
returns its 3-key dict, which line 173 unpacks into two variables. This
theorem evaluates the model at the failing input (for every similarity
function, since the crash precedes the similarity computation). -/
theorem compare_responses_self_raises (ratio : String → String → ℚ) :
    compare_responses ratio exResp exResp "evil.com" (85 / 100)
      = .error "ValueError: too many values to unpack (expected 2)" := rfl

/-- C6 counterexample: with an empty injected value the claimed equivalence
fails — the empty string is a (case-insensitive) substring of the Location
header, yet validate_response_reflection takes its early tuple return and
reports no Location reflection. -/
theorem reflection_iff_fails_on_empty_value :
    ¬ (reportsLocationReflection
        (validate_response_reflection "body" "" (some "https://evil.com/")) = true ↔
       pyIn (pyLower "") (pyLower "https://evil.com/") = true) := by decide

/-- C6 amended: for every non-empty injected value, a Location reflection is
reported exactly when the value is a case-insensitive substring of a present
Location header; in particular an absent or empty Location reports false. -/
theorem reflection_reported_iff_substring (body pv : String) (loc : Option String)
    (h : pv ≠ "") :
    reportsLocationReflection (validate_response_reflection body pv loc) = true ↔
      ∃ l, loc = some l ∧ pyIn (pyLower pv) (pyLower l) = true := by
  unfold validate_response_reflection
  rw [if_neg h]
  cases loc with
  | none => simp [reportsLocationReflection]
  | some l =>
    dsimp only
    by_cases hl : l = ""
    · subst hl
      have hfalse : pyIn (pyLower pv) (pyLower "") = false :=
        pyIn_empty_hay _ (pyLower_ne_empty pv h)
      simp [reportsLocationReflection, hfalse]
    · rw [if_neg hl]
      by_cases hin : pyIn (pyLower pv) (pyLower l) = true
      · simp [hin, reportsLocationReflection]
      · simp only [Bool.not_eq_true] at hin
        simp [hin, reportsLocationReflection]

theorem reflection_reported_iff_substring_witness :
    reportsLocationReflection
      (validate_response_reflection "b" "EVIL.com" (some "https://evil.com/dash")) = true :=
  (reflection_reported_iff_substring "b" "EVIL.com" (some "https://evil.com/dash")
    (by decide)).mpr ⟨"https://evil.com/dash", rfl, by decide⟩

/-- C2 (evidence of the code defect): with target https://e.co, the extracted
absolute reference https://evil.com/x has a foreign host, yet is_same_domain
accepts it (its path starts with a slash) and the crawler recursively fetches
it, contradicting the claimed discard. -/
theorem out_of_domain_url_crawled :
    is_same_domain exTarget "https://evil.com/x" = true ∧
      "https://evil.com/x" ∈
        (crawl_url exOracleEvil exTarget (seedState exTarget)).fetchLog := by
  decide

/-- C5 counterexample: a crawled page of target https://e.co that references
https://e.co//evil.com/x makes discover_urls return the URL
https://evil.com/x, whose host differs from the target's, falsifying the
claim that every returned URL's host equals the target's host. -/
theorem discover_returns_foreign_host :
    "https://evil.com/x" ∈ discover_urls exOracleSlash exTarget ∧
      (pyUrlparse "https://evil.com/x").netloc ≠ (pyUrlparse exTarget).netloc := by
  decide

/-- C5 amended: the URL list returned by discover_urls never contains more
than MAX_URLS (1000) entries; the host-equality half of the claim fails (see
the counterexample), because a discovered path beginning with a double slash
is rejoined as a protocol-relative reference. -/
theorem discover_urls_bounded (O : Oracle) (target : String) :
    (discover_urls O target).length ≤ 1000 := by
  unfold discover_urls
  have key : ∀ (l acc : List String), acc.length ≤ 1000 →
      (l.foldl (filterStep target) acc).length ≤ 1000 := by
    intro l
    induction l with
    | nil => intro acc h; simpa using h
    | cons a as ih =>
      intro acc h
      simp only [List.foldl_cons]
      apply ih
      simp only [filterStep]
      split
      · rename_i hcond
        simp only [Bool.and_eq_true, decide_eq_true_eq] at hcond
        unfold setAdd
        split
        · exact h
        · simp only [List.length_append, List.length_cons, List.length_nil]
          omega
      · exact h
  exact key _ _ (by simp)

theorem takeWhile_rep {p : Char → Bool} {c : Char} (h : p c = true) (n : Nat) :
    (List.replicate n c).takeWhile p = List.replicate n c := by
  induction n with
  | zero => rfl
  | succ n ih => simp [List.replicate_succ, List.takeWhile_cons_of_pos h, ih]

theorem exOracleMany_fetch_zFull (n : Nat) : exOracleMany.fetch (zFull n) = none := rfl

theorem resolveRef_zLink (n : Nat) :
    resolveRef exTarget exTarget (zLink (n + 1)) = zFull (n + 1) := rfl

theorem is_same_domain_zFull (n : Nat) :
    is_same_domain exTarget (zFull (n + 1)) = true := rfl

theorem pyUrljoin_slash_z (n : Nat) :
    pyUrljoin exTarget ⟨'/' :: List.replicate (n + 1) 'z'⟩ = zFull (n + 1) := rfl

theorem parse_path_zFull (n : Nat) :
    (pyUrlparse (zFull (n + 1))).path = ⟨'/' :: List.replicate (n + 1) 'z'⟩ := by
  show (⟨List.takeWhile (fun c => !isPathEnd c)
      ('/' :: List.replicate (n + 1) 'z')⟩ : String) = _
  rw [List.takeWhile_cons_of_pos (by decide), takeWhile_rep (by decide)]

theorem rstrip_slash_z (n : Nat) :
    rstripSlash ('/' :: List.replicate (n + 1) 'z') = '/' :: List.replicate (n + 1) 'z' := by
  have h1 : ('/' :: List.replicate (n + 1) 'z').reverse.dropWhile (fun c => c == '/')
      = ('/' :: List.replicate (n + 1) 'z').reverse := by
    rw [List.reverse_cons, List.reverse_replicate, List.replicate_succ, List.cons_append]
    exact List.dropWhile_cons_of_neg (by decide)
  unfold rstripSlash
  rw [h1, List.reverse_reverse]

theorem normalize_path_zFull (n : Nat) :
    normalize_path exTarget (zFull (n + 1)) = zFull (n + 1) := by
  simp only [normalize_path, parse_path_zFull, rstrip_slash_z]
  rw [if_neg (by simp)]
  exact pyUrljoin_slash_z n

theorem zFull_length (n : Nat) : (zFull n).length = 13 + n := by
  show ("https://e.co".data ++ '/' :: List.replicate n 'z').length = 13 + n
  have h12 : "https://e.co".data.length = 12 := rfl
  simp only [List.length_append, List.length_cons, List.length_replicate, h12]
  omega

theorem zFull_inj {a b : Nat} (h : zFull a = zFull b) : a = b := by
  have h1 := congrArg String.length h
  rw [zFull_length, zFull_length] at h1
  omega

theorem seeds_short : ∀ s ∈ (seedState exTarget).disc, s.length < 40 := by decide

theorem zFull_not_in_seeds {m : Nat} (h : 50 ≤ m) :
    zFull m ∉ (seedState exTarget).disc := by
  intro hmem
  have h1 := seeds_short _ hmem
  rw [zFull_length] at h1
  omega

theorem contains_eq_false_of_not_mem {l : List String} {x : String} (h : x ∉ l) :
    l.contains x = false := by
  by_contra hc
  simp only [Bool.not_eq_false] at hc
  exact h (List.elem_iff.mp hc)

theorem crawlLeaf_zFull_disc (n : Nat) (st : CrawlSt) :
    (crawlLeaf exOracleMany exTarget (zFull n) st).disc = st.disc := by
  simp [crawlLeaf, exOracleMany_fetch_zFull]

theorem crawlRootRefs_zLinks_length :
    ∀ (k j : Nat) (st : CrawlSt), 50 ≤ j →
      (∀ m, j ≤ m → zFull m ∉ st.disc) →
      ((crawlRootRefs exOracleMany exTarget (zLinks j k) st).disc).length
        = st.disc.length + k := by
  intro k
  induction k with
  | zero => intro j st _ _; rfl
  | succ k ih =>
    intro j st hj hfresh
    obtain ⟨j', rfl⟩ : ∃ j', j = j' + 1 := ⟨j - 1, by omega⟩
    have hcontains : st.disc.contains (zFull (j' + 1)) = false :=
      contains_eq_false_of_not_mem (hfresh _ (le_refl _))
    have hkeep : keepTest exTarget st (zFull (j' + 1)) = true := by
      unfold keepTest
      rw [is_same_domain_zFull, hcontains]
      rfl
    have hadd : setAdd st.disc (zFull (j' + 1)) = st.disc ++ [zFull (j' + 1)] := by
      unfold setAdd
      rw [hcontains]
      simp
    have hfresh2 : ∀ m, j' + 2 ≤ m → zFull m ∉ st.disc ++ [zFull (j' + 1)] := by
      intro m hm hmem
      rcases List.mem_append.mp hmem with h1 | h1
      · exact hfresh m (by omega) h1
      · have := zFull_inj (List.mem_singleton.mp h1)
        omega
    rw [show zLinks (j' + 1) (k + 1) = zLink (j' + 1) :: zLinks (j' + 2) k from rfl]
    simp only [crawlRootRefs, resolveRef_zLink, hkeep, normalize_path_zFull, hadd,
      if_true]
    split
    · rw [ih (j' + 2) _ (by omega)
        (by intro m hm; rw [crawlLeaf_zFull_disc]; exact hfresh2 m hm)]
      rw [crawlLeaf_zFull_disc]
      simp only [List.length_append, List.length_cons, List.length_nil]
      omega
    · rw [ih (j' + 2) _ (by omega) hfresh2]
      simp only [List.length_append, List.length_cons, List.length_nil]
      omega

/-- C3 counterexample: the claim that the discovered set never exceeds
MAX_URLS fails — with 960 same-domain links on the target page the discovered
set reaches 42 + 960 = 1002 entries, because crawl_url adds every found URL
without a cap check (only recursion is capped). -/
theorem discovered_set_exceeds_cap :
    1000 < ((crawl_url exOracleMany exTarget (seedState exTarget)).disc).length := by
  have hseeds : (seedState exTarget).disc.length = 42 := by decide
  have hproj : ({ seedState exTarget with
      fetchLog := (seedState exTarget).fetchLog ++ [exTarget] } : CrawlSt).disc
      = (seedState exTarget).disc := rfl
  have hfresh : ∀ m, 50 ≤ m → zFull m ∉
      ({ seedState exTarget with
         fetchLog := (seedState exTarget).fetchLog ++ [exTarget] } : CrawlSt).disc := by
    intro m hm
    rw [hproj]
    exact zFull_not_in_seeds hm
  have hgrow := crawlRootRefs_zLinks_length 960 50
    { seedState exTarget with
      fetchLog := (seedState exTarget).fetchLog ++ [exTarget] } (by omega) hfresh
  have hstep : crawl_url exOracleMany exTarget (seedState exTarget)
      = crawlRootRefs exOracleMany exTarget (zLinks 50 960)
          { seedState exTarget with
            fetchLog := (seedState exTarget).fetchLog ++ [exTarget] } := rfl
  rw [hstep, hgrow, hproj, hseeds]
  omega

theorem crawlLeafStep_recLog (target pageUrl : String) (st : CrawlSt) (ref : String) :
    (crawlLeafStep target pageUrl st ref).recLog = st.recLog := by
  simp only [crawlLeafStep]
  split <;> rfl

theorem crawlLeaf_recLog (O : Oracle) (target url : String) (st : CrawlSt) :
    (crawlLeaf O target url st).recLog = st.recLog := by
  have key : ∀ (refs : List String) (s : CrawlSt),
      (refs.foldl (crawlLeafStep target url) s).recLog = s.recLog := by
    intro refs
    induction refs with
    | nil => intro s; rfl
    | cons r rs ih =>
      intro s
      simp only [List.foldl_cons]
      rw [ih, crawlLeafStep_recLog]
  unfold crawlLeaf
  cases h : O.fetch url with
  | none => rfl
  | some refs => exact key refs _

theorem crawlRootRefs_recLog_bound (O : Oracle) (target : String) :
    ∀ (links : List String) (st : CrawlSt),
      (∀ n ∈ st.recLog, n < 1000) →
      ∀ n ∈ (crawlRootRefs O target links st).recLog, n < 1000 := by
  intro links
  induction links with
  | nil => intro st h; simpa [crawlRootRefs] using h
  | cons ref rest ih =>
    intro st h
    simp only [crawlRootRefs]
    split
    · split
      · rename_i hlt
        apply ih
        intro n hn
        rw [crawlLeaf_recLog] at hn
        simp only [List.mem_append, List.mem_singleton] at hn
        rcases hn with hn | hn
        · exact h n hn
        · subst hn
          simpa using hlt
      · apply ih
        intro n hn
        exact h n hn
    · exact ih st h

/-- C3 amended: once the discovered set holds MAX_URLS entries no further
recursive expansion occurs — every recursive crawl decision is taken with the
just-updated set size strictly below 1000 — although the set itself can grow
past MAX_URLS (see the counterexample), since URLs found on one page are
added without a cap check. -/
theorem recursion_only_below_cap (O : Oracle) (target : String) :
    ∀ n ∈ (crawl_url O target (seedState target)).recLog, n < 1000 := by
  intro n hn
  unfold crawl_url at hn
  cases h : O.fetch target with
  | none =>
    rw [h] at hn
    simp [seedState] at hn
  | some refs =>
    rw [h] at hn
    exact crawlRootRefs_recLog_bound O target refs _
      (by intro x hx; simp [seedState] at hx) n hn

theorem recursion_only_below_cap_witness : (43 : Nat) < 1000 :=
  recursion_only_below_cap exOracleOne exTarget 43 (by decide)

theorem probeStep_chars (hv test_url : String) (resp? : Option HttpResponse)
    (acc : List ProbeRecord × Nat) (h : hv ≠ "") :
    probeStep hv test_url resp? acc =
      .ok (acc.1 ++ probeRecOf hv test_url resp?, acc.2 + probeSleepOf resp?) := by
  cases resp? with
  | none => simp [probeStep, probeRecOf, probeSleepOf]
  | some resp =>
    unfold probeStep probeRecOf probeSleepOf
    dsimp only
    by_cases h302 : resp.status = 302
    · rw [if_pos h302, if_pos h302]
      unfold validate_response_reflection
      rw [if_neg h]
      dsimp only
      by_cases hloc : (headerGetCI resp.headers "Location").getD "" = ""
      · simp [hloc]
      · by_cases hin :
            pyIn (pyLower hv) (pyLower ((headerGetCI resp.headers "Location").getD ""))
              = true
        · simp [hin, hloc]
        · simp only [Bool.not_eq_true] at hin
          simp [hin, hloc]
    · simp [h302]

theorem dedup_length_one_iff {l : List String} (hne : l ≠ []) :
    l.dedup.length = 1 ↔ ∀ a ∈ l, ∀ b ∈ l, a = b := by
  constructor
  · intro h a ha b hb
    obtain ⟨x, hx⟩ := List.length_eq_one.mp h
    have hax : a ∈ l.dedup := List.mem_dedup.mpr ha
    have hbx : b ∈ l.dedup := List.mem_dedup.mpr hb
    rw [hx] at hax hbx
    simp only [List.mem_singleton] at hax hbx
    rw [hax, hbx]
  · intro h
    obtain ⟨c, cs, rfl⟩ := List.exists_cons_of_ne_nil hne
    have hsub : ∀ x ∈ (c :: cs).dedup, x = c :=
      fun x hx => h x (List.mem_dedup.mp hx) c (List.mem_cons_self c cs)
    have hmem : c ∈ (c :: cs).dedup :=
      List.mem_dedup.mpr (List.mem_cons_self c cs)
    have hnodup := (c :: cs).nodup_dedup
    rcases hdd : (c :: cs).dedup with _ | ⟨x, _ | ⟨y, rest⟩⟩
    · rw [hdd] at hmem
      simp at hmem
    · simp
    · exfalso
      rw [hdd] at hsub hnodup
      have hx := hsub x (by simp)
      have hy := hsub y (by simp)
      rw [hx, hy] at hnodup
      simp [List.nodup_cons] at hnodup

/-- C7. verify_302_poisoning rejects directly from the baseline stage —
returning no finding with a reason while issuing zero probe requests —
exactly when the baseline fetch fails with a transport error or the baseline
response is already a 302 whose Location contains the payload value
case-insensitively. -/
theorem verify_baseline_rejects_iff (env : VerifyEnv) (hn hv : String) :
    ((verify_302_poisoning env hn hv).probesIssued = 0 ∧
      ∃ r, (verify_302_poisoning env hn hv).outcome = .ok (none, some r)) ↔
    ((∃ e, env.baseline = .error e) ∨
      ∃ b, env.baseline = .ok b ∧ b.status = 302 ∧
        pyIn (pyLower hv) (pyLower ((headerGetCI b.headers "Location").getD ""))
          = true) := by
  unfold verify_302_poisoning
  cases hb : env.baseline with
  | error e =>
    constructor
    · intro _
      exact .inl ⟨e, rfl⟩
    · intro _
      exact ⟨rfl, ⟨_, rfl⟩⟩
  | ok b =>
    dsimp only
    by_cases hg : (b.status = 302 &&
        pyIn (pyLower hv) (pyLower ((headerGetCI b.headers "Location").getD "")))
          = true
    · rw [if_pos hg]
      simp only [Bool.and_eq_true, decide_eq_true_eq] at hg
      constructor
      · intro _
        exact .inr ⟨b, rfl, hg.1, hg.2⟩
      · intro _
        exact ⟨rfl, ⟨_, rfl⟩⟩
    · rw [if_neg hg]
      constructor
      · intro ⟨hp, _⟩
        exfalso
        rcases hps1 : probeStep hv (env.url ++ "?" ++ env.cb1) env.probe1 ([], 0)
          with e1 | acc1
        · rw [hps1] at hp
          simp at hp
        · rw [hps1] at hp
          dsimp only at hp
          rcases hps2 : probeStep hv (env.url ++ "?" ++ env.cb2) env.probe2 acc1
            with e2 | acc2
          · rw [hps2] at hp
            simp at hp
          · rw [hps2] at hp
            dsimp only at hp
            split at hp <;> simp at hp
      · intro hr
        exfalso
        rcases hr with ⟨e, he⟩ | ⟨b2, hb2, hs, hin⟩
        · exact absurd he (by simp)
        · injection hb2 with hbb
          subst hbb
          exact hg (by simp [hs, hin])

/-- C4. Given a usable baseline (fetched, and not already a 302 reflecting
the non-empty payload), verify_302_poisoning returns a finding exactly when
at least 2 probe successes are recorded and all recorded Location values are
pairwise byte-identical, in which case the returned finding is the first
recorded probe; in every other probing outcome it returns no finding with
reason Inconsistent or insufficient 302 responses. -/
theorem verify_302_decision_rule (env : VerifyEnv) (hn hv : String)
    (hb : ∃ b, env.baseline = .ok b ∧
      ¬(b.status = 302 ∧ pyIn (pyLower hv)
          (pyLower ((headerGetCI b.headers "Location").getD "")) = true))
    (hne : hv ≠ "") :
    (verify_302_poisoning env hn hv).outcome =
      .ok (if 2 ≤ (recordedProbes env hv).length ∧
             (∀ r ∈ recordedProbes env hv, ∀ s ∈ recordedProbes env hv,
               r.location = s.location)
           then ((recordedProbes env hv).head?, none)
           else (none, some "Inconsistent or insufficient 302 responses")) := by
  obtain ⟨b, hbe, hguard⟩ := hb
  unfold verify_302_poisoning
  rw [hbe]
  dsimp only
  rw [if_neg (by simpa [Bool.and_eq_true, decide_eq_true_eq] using hguard)]
  rw [probeStep_chars hv _ env.probe1 _ hne]
  dsimp only
  rw [probeStep_chars hv _ env.probe2 _ hne]
  dsimp only
  simp only [List.nil_append]
  have hRR : recordedProbes env hv =
      probeRecOf hv (env.url ++ "?" ++ env.cb1) env.probe1 ++
        probeRecOf hv (env.url ++ "?" ++ env.cb2) env.probe2 := rfl
  rw [← hRR]
  by_cases hc : 2 ≤ (recordedProbes env hv).length ∧
      ((recordedProbes env hv).map (fun r => r.location)).dedup.length = 1
  · rw [if_pos hc]
    have hmapne : (recordedProbes env hv).map (fun r => r.location) ≠ [] := by
      intro hnil
      have hlen := congrArg List.length hnil
      simp only [List.length_map, List.length_nil] at hlen
      omega
    have hpair : ∀ r ∈ recordedProbes env hv, ∀ s ∈ recordedProbes env hv,
        r.location = s.location := by
      intro r hr s hs
      exact (dedup_length_one_iff hmapne).mp hc.2 _ (List.mem_map_of_mem _ hr) _
        (List.mem_map_of_mem _ hs)
    rw [if_pos ⟨hc.1, hpair⟩]
  · rw [if_neg hc]
    have hnot : ¬(2 ≤ (recordedProbes env hv).length ∧
        ∀ r ∈ recordedProbes env hv, ∀ s ∈ recordedProbes env hv,
          r.location = s.location) := by
      rintro ⟨h1, h2⟩
      apply hc
      refine ⟨h1, ?_⟩
      have hmapne : (recordedProbes env hv).map (fun r => r.location) ≠ [] := by
        intro hnil
        have hlen := congrArg List.length hnil
        simp only [List.length_map, List.length_nil] at hlen
        omega
      rw [dedup_length_one_iff hmapne]
      intro a ha b2 hb2
      obtain ⟨r, hr, rfl⟩ := List.mem_map.mp ha
      obtain ⟨s, hs, rfl⟩ := List.mem_map.mp hb2
      exact h2 r hr s hs
    rw [if_neg hnot]

theorem verify_302_decision_rule_witness :
    (verify_302_poisoning exEnvGood "X-Forwarded-Host" "evil.com").outcome =
      .ok (some (exRecordGood "v1"), none) := by
  have h := verify_302_decision_rule exEnvGood "X-Forwarded-Host" "evil.com"
    ⟨⟨200, [], "home"⟩, rfl, by decide⟩ (by decide)
  rw [h]
  decide

theorem probeRecOf_mem (hv u : String) (r? : Option HttpResponse)
    (x : ProbeRecord) (hx : x ∈ probeRecOf hv u r?) :
    x.status_code = 302 ∧ pyIn (pyLower hv) (pyLower x.location) = true := by
  cases r? with
  | none => simp [probeRecOf] at hx
  | some resp =>
    simp only [probeRecOf] at hx
    by_cases h302 : resp.status = 302
    · rw [if_pos h302] at hx
      split at hx
      · rename_i hcond
        simp only [List.mem_singleton] at hx
        subst hx
        exact ⟨h302, hcond.2⟩
      · simp at hx
    · rw [if_neg h302] at hx
      simp at hx

theorem probeStep_empty (u : String) (r? : Option HttpResponse)
    (acc : List ProbeRecord × Nat) :
    (∃ e, probeStep "" u r? acc = .error e) ∨
      (∃ n, probeStep "" u r? acc = .ok (acc.1, n)) := by
  cases r? with
  | none => exact .inr ⟨acc.2, rfl⟩
  | some resp =>
    unfold probeStep
    dsimp only
    by_cases h302 : resp.status = 302
    · rw [if_pos h302]
      exact .inl ⟨_, rfl⟩
    · rw [if_neg h302]
      exact .inr ⟨_, rfl⟩

/-- C10. Whenever verify_302_poisoning returns a finding (rather than a
rejection reason), the finding's status_code is 302 and the injected header
value is a case-insensitive substring of its location field. -/
theorem verified_finding_is_302_reflected (env : VerifyEnv) (hn hv : String)
    (f : ProbeRecord) (rest : Option String)
    (h : (verify_302_poisoning env hn hv).outcome = .ok (some f, rest)) :
    f.status_code = 302 ∧ pyIn (pyLower hv) (pyLower f.location) = true := by
  by_cases hne : hv = ""
  · exfalso
    subst hne
    unfold verify_302_poisoning at h
    cases hb : env.baseline with
    | error e =>
      rw [hb] at h
      simp at h
    | ok b =>
      rw [hb] at h
      dsimp only at h
      split at h
      · simp at h
      · rcases probeStep_empty (env.url ++ "?" ++ env.cb1) env.probe1 ([], 0)
          with ⟨e1, he1⟩ | ⟨n1, hn1⟩
        · rw [he1] at h
          simp at h
        · rw [hn1] at h
          dsimp only at h
          rcases probeStep_empty (env.url ++ "?" ++ env.cb2) env.probe2 ([], n1)
            with ⟨e2, he2⟩ | ⟨n2, hn2⟩
          · rw [he2] at h
            simp at h
          · rw [hn2] at h
            dsimp only at h
            split at h
            · rename_i hcond
              simp at hcond
            · simp at h
  · unfold verify_302_poisoning at h
    cases hb : env.baseline with
    | error e =>
      rw [hb] at h
      simp at h
    | ok b =>
      rw [hb] at h
      dsimp only at h
      split at h
      · simp at h
      · rw [probeStep_chars hv _ env.probe1 _ hne] at h
        dsimp only at h
        rw [probeStep_chars hv _ env.probe2 _ hne] at h
        dsimp only at h
        simp only [List.nil_append] at h
        split at h
        · simp only [Except.ok.injEq, Prod.mk.injEq] at h
          have hhead := h.1
          have hfmem : f ∈ probeRecOf hv (env.url ++ "?" ++ env.cb1) env.probe1 ++
              probeRecOf hv (env.url ++ "?" ++ env.cb2) env.probe2 := by
            cases hl : probeRecOf hv (env.url ++ "?" ++ env.cb1) env.probe1 ++
                probeRecOf hv (env.url ++ "?" ++ env.cb2) env.probe2 with
            | nil =>
              rw [hl] at hhead
              simp at hhead
            | cons r rs =>
              rw [hl] at hhead
              simp only [List.head?_cons, Option.some.injEq] at hhead
              rw [← hhead]
              exact List.mem_cons_self r rs
          rcases List.mem_append.mp hfmem with hm | hm
          · exact probeRecOf_mem hv _ env.probe1 f hm
          · exact probeRecOf_mem hv _ env.probe2 f hm
        · simp at h

theorem verified_finding_is_302_reflected_witness :
    (exRecordGood "v1").status_code = 302 ∧
      pyIn (pyLower "evil.com") (pyLower (exRecordGood "v1").location) = true :=
  verified_finding_is_302_reflected exEnvGood "X-Forwarded-Host" "evil.com"
    (exRecordGood "v1") none (by decide)

/-- C9. The scan mode parameter never influences core behaviour: for the same
URL, payload catalog and transport responses, any two modes produce the same
per-pair verification results (probe requests, sleeps and decisions) and the
same records appended to the finding log. -/
theorem test_cache_poisoning_mode_invariant (url : String)
    (payloads : List (String × List String))
    (transport : String → String → VerifyEnv) (m1 m2 : ScanMode) :
    test_cache_poisoning url payloads transport m1 =
      test_cache_poisoning url payloads transport m2 := rfl
